import Mathlib

/-!
Verification development for the hand/watch virtual try-on core
(`backend/hand_watch_segmentation.py`).

The Python functions are shallowly embedded:

* machine floats are modelled as exact real numbers (`ℝ`) where the source
  computes with `math.sqrt` / `math.atan2`, and as exact rationals (`ℚ`)
  where only ratios of integers appear (`0.29`, `0.3`, `0.5`, `0.1`);
* Python `int(x)` (truncation toward zero) is `pyTrunc` on `ℝ` and
  `pyIntQ` on `ℚ`;
* external OpenCV / detector calls (`cv2.grabCut`, `cv2.resize`,
  `cv2.dilate`, `cv2.erode`, `cv2.findContours`, mediapipe hands, the
  YOLO model) are not code of this repository; they are abstracted as
  environment records whose operations may also fail (`Except String`),
  modelling Python exceptions raised inside library calls;
* numpy uint8 image buffers become total pixel functions together with
  explicit height/width fields, or lists of rows where pixel sums matter.
-/

/-- Python `int(x)` on a real number: truncation toward zero. -/
noncomputable def pyTrunc (r : ℝ) : ℤ :=
  if r < 0 then ⌈r⌉ else ⌊r⌋

/-- Python `int(x)` on an exact rational: truncation toward zero. -/
def pyIntQ (q : ℚ) : ℤ :=
  if q < 0 then ⌈q⌉ else ⌊q⌋

/-! ## `normalize_angle` (hand_watch_segmentation.py lines 145-150)

The source normalizes an angle with two sequential loops:
`while angle > 180: angle -= 360` followed by
`while angle < -180: angle += 360`. -/

open Classical in
/-- First loop of `normalize_angle`: `while angle > 180: angle -= 360`. -/
noncomputable def normDown (a : ℝ) : ℝ :=
  if 180 < a then normDown (a - 360) else a
termination_by (⌈(a - 180) / 360⌉).toNat
decreasing_by
  have h1 : (0:ℝ) < (a - 180) / 360 := by
    apply div_pos
    · linarith
    · norm_num
  have h2 : (0:ℤ) < ⌈(a - 180) / 360⌉ := Int.ceil_pos.mpr h1
  have h3 : (a - 360 - 180) / 360 = (a - 180) / 360 - 1 := by ring
  have h4 : ⌈(a - 360 - 180) / 360⌉ = ⌈(a - 180) / 360⌉ - 1 := by
    rw [h3]
    exact_mod_cast Int.ceil_sub_int ((a - 180) / 360) 1
  omega

open Classical in
/-- Second loop of `normalize_angle`: `while angle < -180: angle += 360`. -/
noncomputable def normUp (a : ℝ) : ℝ :=
  if a < -180 then normUp (a + 360) else a
termination_by (⌈(-180 - a) / 360⌉).toNat
decreasing_by
  have h1 : (0:ℝ) < (-180 - a) / 360 := by
    apply div_pos
    · linarith
    · norm_num
  have h2 : (0:ℤ) < ⌈(-180 - a) / 360⌉ := Int.ceil_pos.mpr h1
  have h3 : (-180 - (a + 360)) / 360 = (-180 - a) / 360 - 1 := by ring
  have h4 : ⌈(-180 - (a + 360)) / 360⌉ = ⌈(-180 - a) / 360⌉ - 1 := by
    rw [h3]
    exact_mod_cast Int.ceil_sub_int ((-180 - a) / 360) 1
  omega

/-- `normalize_angle` from `_calculate_wrist_angle`: the two loops in
source order. -/
noncomputable def normalize_angle (a : ℝ) : ℝ :=
  normUp (normDown a)

/-- `math.degrees(math.atan2(y, x))`, modelled over the reals via the
complex argument (which agrees with `atan2` on all inputs, including
`atan2 0 0 = 0`). -/
noncomputable def atan2deg (y x : ℝ) : ℝ :=
  Complex.arg (x + y * Complex.I) * 180 / Real.pi

/-- `_calculate_wrist_angle` (lines 133-158).  `angle2` is computed from
`index_mcp` in the source but never used for the returned value; it is
kept here for fidelity. -/
noncomputable def _calculate_wrist_angle (wrist_pos thumb_pos index_pos middle_pos : ℤ × ℤ) : ℝ :=
  let dx1 : ℝ := ((middle_pos.1 - wrist_pos.1 : ℤ) : ℝ)
  let dy1 : ℝ := ((middle_pos.2 - wrist_pos.2 : ℤ) : ℝ)
  let angle1 := atan2deg dy1 dx1
  let dx2 : ℝ := ((middle_pos.1 - index_pos.1 : ℤ) : ℝ)
  let dy2 : ℝ := ((middle_pos.2 - index_pos.2 : ℤ) : ℝ)
  let angle2 := atan2deg dy2 dx2 + 90
  let angle1n := normalize_angle angle1
  let _angle2n := normalize_angle angle2
  let final_angle := angle1n
  normalize_angle (final_angle + 90)

open Classical in
/-- `_adjust_wrist_position` (lines 109-131): move the wrist anchor away
from the middle MCP by 0.35 of the wrist-to-middle-MCP distance, with
Python `int()` truncation of each coordinate. -/
noncomputable def _adjust_wrist_position (wrist_pos thumb_pos index_pos middle_pos : ℤ × ℤ) : ℤ × ℤ :=
  let dx : ℝ := ((middle_pos.1 - wrist_pos.1 : ℤ) : ℝ)
  let dy : ℝ := ((middle_pos.2 - wrist_pos.2 : ℤ) : ℝ)
  let vector_length := Real.sqrt (dx * dx + dy * dy)
  if vector_length = 0 then wrist_pos
  else
    let move_ratio : ℝ := 0.35
    let unit_dx := -dx / vector_length
    let unit_dy := -dy / vector_length
    let move_distance := vector_length * move_ratio
    (pyTrunc ((wrist_pos.1 : ℝ) + unit_dx * move_distance),
     pyTrunc ((wrist_pos.2 : ℝ) + unit_dy * move_distance))

/-- Euclidean length `|middle - wrist|` of the integer pixel vector from
the raw wrist to the middle MCP, written as in the source
(`math.sqrt(dx*dx + dy*dy)`). -/
noncomputable def vecNorm (wrist middle : ℤ × ℤ) : ℝ :=
  Real.sqrt (((middle.1 - wrist.1 : ℤ) : ℝ) * ((middle.1 - wrist.1 : ℤ) : ℝ) +
    ((middle.2 - wrist.2 : ℤ) : ℝ) * ((middle.2 - wrist.2 : ℤ) : ℝ))

/-! ## Masks and the OpenCV environment for the GrabCut refinement paths

`GMask` models a single-channel numpy array (mask or, with opaque pixel
encoding, an image) as a list of pixel rows.  The OpenCV calls used by
`_apply_grabcut_refinement` / `_apply_grabcut_to_hand` are external
library code; they are a `CvEnv` record of operations, each returning
`Except String` so that any call may raise a Python exception. -/

abbrev GMask : Type := List (List ℕ)

/-- `np.sum(mask)`: the sum of all pixel values. -/
def maskSum (m : GMask) : ℕ := (m.map fun r => r.sum).sum

/-- `arr.shape[0]` (number of rows). -/
def gHeight (m : GMask) : ℕ := m.length

/-- `arr.shape[1]` (number of columns). -/
def gWidth (m : GMask) : ℕ := (m.headD []).length

/-- The two `cv2.grabCut` initialization modes the source uses
(`cv2.GC_INIT_WITH_RECT` and `cv2.GC_INIT_WITH_MASK`). -/
inductive GCMode where
  | initWithRect
  | initWithMask
deriving DecidableEq

/-- External OpenCV operations used by the refinement paths: `cv2.resize`
on the image and on a mask, `cv2.dilate` / `cv2.erode` (kernel size and
iteration count), `cv2.findContours` + `max(..., key=cv2.contourArea)` +
`cv2.boundingRect` fused into `largestContourRect`, `cv2.grabCut`
(returning its mutated trimap argument), and `cv2.morphologyEx` with
`MORPH_CLOSE` / `MORPH_OPEN`. -/
structure CvEnv where
  resizeImg : GMask → ℕ × ℕ → Except String GMask
  resizeMask : GMask → ℕ × ℕ → Except String GMask
  dilate : GMask → ℕ → ℕ → Except String GMask
  erode : GMask → ℕ → ℕ → Except String GMask
  largestContourRect : GMask → Except String (Option (ℕ × ℕ × ℕ × ℕ))
  grabCut : GMask → GMask → ℕ × ℕ × ℕ × ℕ → ℕ → GCMode → Except String GMask
  morphClose : GMask → ℕ → ℕ → Except String GMask
  morphOpen : GMask → ℕ → ℕ → Except String GMask

/-- One pixel of the trimap the source builds (lines 296-312 and
392-407): start from `np.zeros` (`GC_BGD = 0`), assign `GC_PR_FGD = 3`
where the initial mask is positive, then `GC_FGD = 1` inside the eroded
copy, then `GC_BGD = 0` outside the dilated copy — in assignment order. -/
def trimapPix (rVal eVal dVal : ℕ) : ℕ :=
  let v0 : ℕ := 0
  let v1 : ℕ := if 0 < rVal then 3 else v0
  let v2 : ℕ := if 0 < eVal then 1 else v1
  if dVal = 0 then 0 else v2

/-- The full trimap, built pointwise from the resized mask and its eroded
and dilated copies. -/
def buildTrimap (resized eroded dilated : GMask) : GMask :=
  List.zipWith3 (fun r e d => List.zipWith3 trimapPix r e d) resized eroded dilated

/-- `_get_bounding_rect_from_mask` (lines 357-372): the bounding
rectangle of the largest contour (external, via
`env.largestContourRect`), expanded by a 10px margin and clamped to the
mask extent.  `max(0, x - margin)` is `ℕ` subtraction. -/
def _get_bounding_rect_from_mask (env : CvEnv) (mask : GMask) :
    Except String (Option (ℕ × ℕ × ℕ × ℕ)) := do
  match ← env.largestContourRect mask with
  | some (x, y, w, h) =>
      let margin := 10
      let x2 := x - margin
      let y2 := y - margin
      let w2 := min (gWidth mask - x2) (w + 2 * margin)
      let h2 := min (gHeight mask - y2) (h + 2 * margin)
      pure (some (x2, y2, w2, h2))
  | none => pure none

/-- Body of `_apply_grabcut_refinement` (lines 278-355) inside the outer
`try`: optional downscale when the longer side exceeds 800px, trimap from
the 3×3-kernel 2-iteration eroded/dilated copies, `cv2.grabCut` with 3
iterations (rect mode when a bounding rect exists, otherwise mask mode
over the whole frame; an error here returns the initial mask — the inner
`except`), binarization of `GC_FGD`/`GC_PR_FGD` pixels to 255, upscale
back, and the 30% acceptance gate. -/
def grabcutRefineBody (env : CvEnv) (image initial_mask : GMask) : Except String GMask := do
  let max_size : ℕ := 800
  let h := gHeight image
  let w := gWidth image
  let rp ←
    if max_size < max h w then do
      let scale : ℚ := (max_size : ℚ) / ((max h w : ℕ) : ℚ)
      let new_h := (pyIntQ ((h : ℚ) * scale)).toNat
      let new_w := (pyIntQ ((w : ℚ) * scale)).toNat
      let ri ← env.resizeImg image (new_w, new_h)
      let rm ← env.resizeMask initial_mask (new_w, new_h)
      pure (ri, rm)
    else
      pure (image, initial_mask)
  let resized_image := rp.1
  let resized_mask := rp.2
  let dilated_mask ← env.dilate resized_mask 3 2
  let eroded_mask ← env.erode resized_mask 3 2
  let grabcut_mask := buildTrimap resized_mask eroded_mask dilated_mask
  let rect ← _get_bounding_rect_from_mask env resized_mask
  let gcResult :=
    match rect with
    | some r => env.grabCut resized_image grabcut_mask r 3 GCMode.initWithRect
    | none => env.grabCut resized_image grabcut_mask
        (0, 0, gWidth resized_image, gHeight resized_image) 3 GCMode.initWithMask
  match gcResult with
  | Except.error _ => pure initial_mask
  | Except.ok gcMask => do
      let refined0 := gcMask.map fun row => row.map fun v => if v = 1 ∨ v = 3 then 255 else 0
      let refined ← if max_size < max h w then env.resizeMask refined0 (w, h) else pure refined0
      if (maskSum refined : ℚ) < (maskSum initial_mask : ℚ) * 0.3 then
        pure initial_mask
      else
        pure refined

/-- `_apply_grabcut_refinement` (lines 278-355): the watch-mask trimap
refinement; the outer `except` returns the pre-refinement mask on any
fault, so the function is total and never propagates an error. -/
def _apply_grabcut_refinement (env : CvEnv) (image initial_mask : GMask) : GMask :=
  match grabcutRefineBody env image initial_mask with
  | Except.ok m => m
  | Except.error _ => initial_mask

/-- Body of `_apply_grabcut_to_hand` (lines 374-454) inside the outer
`try`: same shape as `grabcutRefineBody` but with a 5×5 kernel over 3
iterations for erosion/dilation, 5 GrabCut iterations, a 50% acceptance
gate, and a 3×3 close/open post-pass applied to an accepted refined
mask. -/
def grabcutHandBody (env : CvEnv) (image initial_hand_mask : GMask) : Except String GMask := do
  let max_size : ℕ := 800
  let h := gHeight image
  let w := gWidth image
  let rp ←
    if max_size < max h w then do
      let scale : ℚ := (max_size : ℚ) / ((max h w : ℕ) : ℚ)
      let new_h := (pyIntQ ((h : ℚ) * scale)).toNat
      let new_w := (pyIntQ ((w : ℚ) * scale)).toNat
      let ri ← env.resizeImg image (new_w, new_h)
      let rm ← env.resizeMask initial_hand_mask (new_w, new_h)
      pure (ri, rm)
    else
      pure (image, initial_hand_mask)
  let resized_image := rp.1
  let resized_mask := rp.2
  let dilated_mask ← env.dilate resized_mask 5 3
  let eroded_mask ← env.erode resized_mask 5 3
  let grabcut_mask := buildTrimap resized_mask eroded_mask dilated_mask
  let rect ← _get_bounding_rect_from_mask env resized_mask
  let gcResult :=
    match rect with
    | some r => env.grabCut resized_image grabcut_mask r 5 GCMode.initWithRect
    | none => env.grabCut resized_image grabcut_mask
        (0, 0, gWidth resized_image, gHeight resized_image) 5 GCMode.initWithMask
  match gcResult with
  | Except.error _ => pure initial_hand_mask
  | Except.ok gcMask => do
      let refined0 := gcMask.map fun row => row.map fun v => if v = 1 ∨ v = 3 then 255 else 0
      let refined ← if max_size < max h w then env.resizeMask refined0 (w, h) else pure refined0
      if (maskSum refined : ℚ) < (maskSum initial_hand_mask : ℚ) * 0.5 then
        pure initial_hand_mask
      else do
        let r1 ← env.morphClose refined 3 1
        let r2 ← env.morphOpen r1 3 1
        pure r2

/-- `_apply_grabcut_to_hand` (lines 374-454): the hand-silhouette trimap
refinement; the outer `except` returns the initial hand mask on any
fault. -/
def _apply_grabcut_to_hand (env : CvEnv) (image initial_hand_mask : GMask) : GMask :=
  match grabcutHandBody env image initial_hand_mask with
  | Except.ok m => m
  | Except.error _ => initial_hand_mask

/-- The trimap-refinement routine as the spec's §4.2 step 5 describes it,
parameterized the way the spec's reuse note requires: erosion/dilation
kernel size and iteration count, the iteration budget of the
energy-minimization pass, the acceptance-gate ratio, and whether an
accepted result receives the 3×3 close/open post-pass. -/
def grabcutRoutineBody (env : CvEnv) (kSize kIter gcIter : ℕ) (gate : ℚ) (post : Bool)
    (image initial_mask : GMask) : Except String GMask := do
  let max_size : ℕ := 800
  let h := gHeight image
  let w := gWidth image
  let rp ←
    if max_size < max h w then do
      let scale : ℚ := (max_size : ℚ) / ((max h w : ℕ) : ℚ)
      let new_h := (pyIntQ ((h : ℚ) * scale)).toNat
      let new_w := (pyIntQ ((w : ℚ) * scale)).toNat
      let ri ← env.resizeImg image (new_w, new_h)
      let rm ← env.resizeMask initial_mask (new_w, new_h)
      pure (ri, rm)
    else
      pure (image, initial_mask)
  let resized_image := rp.1
  let resized_mask := rp.2
  let dilated_mask ← env.dilate resized_mask kSize kIter
  let eroded_mask ← env.erode resized_mask kSize kIter
  let grabcut_mask := buildTrimap resized_mask eroded_mask dilated_mask
  let rect ← _get_bounding_rect_from_mask env resized_mask
  let gcResult :=
    match rect with
    | some r => env.grabCut resized_image grabcut_mask r gcIter GCMode.initWithRect
    | none => env.grabCut resized_image grabcut_mask
        (0, 0, gWidth resized_image, gHeight resized_image) gcIter GCMode.initWithMask
  match gcResult with
  | Except.error _ => pure initial_mask
  | Except.ok gcMask => do
      let refined0 := gcMask.map fun row => row.map fun v => if v = 1 ∨ v = 3 then 255 else 0
      let refined ← if max_size < max h w then env.resizeMask refined0 (w, h) else pure refined0
      if (maskSum refined : ℚ) < (maskSum initial_mask : ℚ) * gate then
        pure initial_mask
      else
        if post then do
          let r1 ← env.morphClose refined 3 1
          let r2 ← env.morphOpen r1 3 1
          pure r2
        else
          pure refined

/-- Total wrapper of `grabcutRoutineBody` with the fault fallback. -/
def grabcutRoutine (env : CvEnv) (kSize kIter gcIter : ℕ) (gate : ℚ) (post : Bool)
    (image initial_mask : GMask) : GMask :=
  match grabcutRoutineBody env kSize kIter gcIter gate post image initial_mask with
  | Except.ok m => m
  | Except.error _ => initial_mask

/-- An environment whose every operation raises, to witness the fault
fallback. -/
def failEnv : CvEnv :=
  ⟨fun _ _ => Except.error "cv2 error", fun _ _ => Except.error "cv2 error",
   fun _ _ _ => Except.error "cv2 error", fun _ _ _ => Except.error "cv2 error",
   fun _ => Except.error "cv2 error", fun _ _ _ _ _ => Except.error "cv2 error",
   fun _ _ _ => Except.error "cv2 error", fun _ _ _ => Except.error "cv2 error"⟩

/-- A probe environment whose erosion result depends on the kernel size
argument, and whose GrabCut echoes its trimap input; it separates a
5×5-kernel call from a 3×3-kernel call. -/
def probeEnv : CvEnv :=
  ⟨fun m _ => Except.ok m, fun m _ => Except.ok m,
   fun _ _ _ => Except.ok [[255, 255]],
   fun _ k _ => Except.ok (if k = 5 then [[255, 255]] else [[255, 0]]),
   fun _ => Except.ok none,
   fun _ tri _ _ _ => Except.ok tri,
   fun m _ _ => Except.ok m, fun m _ _ => Except.ok m⟩

/-! ## The full-image fallback mask (WatchMaskBuilder) -/

/-- `int(h * 0.1)`: the 10%-of-dimension margin used by
`_create_full_image_mask`. -/
def fallbackMargin (n : ℕ) : ℕ := (pyIntQ ((n : ℚ) * 0.1)).toNat

/-- `_create_full_image_mask` (lines 232-242) as a pixel function over
the `h × w` grid: `mask[margin_h : h - margin_h, margin_w : w - margin_w]
= 255` on an `np.zeros` array. -/
def _create_full_image_mask (h w : ℕ) : ℕ → ℕ → ℕ := fun i j =>
  let margin_h := fallbackMargin h
  let margin_w := fallbackMargin w
  if margin_h ≤ i ∧ i < h - margin_h ∧ margin_w ≤ j ∧ j < w - margin_w then 255 else 0

/-- `np.sum` of a pixel-function mask over the `h × w` grid. -/
def gridSum (h w : ℕ) (m : ℕ → ℕ → ℕ) : ℕ :=
  ∑ i ∈ Finset.range h, ∑ j ∈ Finset.range w, m i j

/-- The fallback substitution of `_process_watch_extraction` (lines
184-186): when the detector union mask is empty, substitute the
full-image fallback mask. -/
def watchMaskOrFallback (h w : ℕ) (watch_mask : ℕ → ℕ → ℕ) : ℕ → ℕ → ℕ :=
  if gridSum h w watch_mask = 0 then _create_full_image_mask h w else watch_mask

/-! ## Images, masks and the Compositor -/

/-- A BGR image buffer: its dimensions and a total pixel function
(indices outside `h × w` are never read by the embedded code paths). -/
structure Layer where
  h : ℕ
  w : ℕ
  pix : ℕ → ℕ → ℕ × ℕ × ℕ

/-- A single-channel uint8 mask buffer. -/
structure MaskL where
  h : ℕ
  w : ℕ
  pix : ℕ → ℕ → ℕ

/-- The result of the four-sided clip in `blend_watch_on_hand` (lines
567-586): the clipped top-left `(x, y)` inside the hand image, the
offsets into the watch layer produced by the negative-index slices, and
the remaining width/height. -/
structure Clip where
  x : ℤ
  y : ℤ
  colOff : ℤ
  rowOff : ℤ
  ww : ℤ
  wh : ℤ

/-- The four clip steps of `blend_watch_on_hand`, in source order: a
negative `x` slices the layer from column `-x` and shrinks `watch_w` by
`x`; same for `y`; then right/bottom overflow truncates the trailing
edge. -/
def clipPlacement (hand_h hand_w watch_h watch_w : ℕ) (position : ℤ × ℤ) : Clip :=
  let h : ℤ := hand_h
  let w : ℤ := hand_w
  let x0 := position.1
  let y0 := position.2
  let colOff : ℤ := if x0 < 0 then -x0 else 0
  let ww1 : ℤ := if x0 < 0 then watch_w + x0 else watch_w
  let x1 : ℤ := if x0 < 0 then 0 else x0
  let rowOff : ℤ := if y0 < 0 then -y0 else 0
  let wh1 : ℤ := if y0 < 0 then watch_h + y0 else watch_h
  let y1 : ℤ := if y0 < 0 then 0 else y0
  let ww2 : ℤ := if w < x1 + ww1 then w - x1 else ww1
  let wh2 : ℤ := if h < y1 + wh1 then h - y1 else wh1
  ⟨x1, y1, colOff, rowOff, ww2, wh2⟩

/-- Per-pixel alpha blend (lines 591-599): `watch·α + roi·(1-α)` with
`α = mask/255` broadcast over the three channels, then
`astype(np.uint8)` (floor: the blend of uint8 inputs is nonnegative). -/
def blendPix (wp : ℕ × ℕ × ℕ) (m : ℕ) (hp : ℕ × ℕ × ℕ) : ℕ × ℕ × ℕ :=
  let alpha : ℚ := (m : ℚ) / 255
  let ch := fun (a b : ℕ) => (⌊(a : ℚ) * alpha + (b : ℚ) * (1 - alpha)⌋).toNat
  (ch wp.1 hp.1, ch wp.2.1 hp.2.1, ch wp.2.2 hp.2.2)

/-- The pixels `result[y : y + watch_h, x : x + watch_w]` written by the
blend, in terms of the clipped placement. -/
abbrev inClipRect (hand_image watch_image : Layer) (position : ℤ × ℤ) (i j : ℕ) : Prop :=
  let c := clipPlacement hand_image.h hand_image.w watch_image.h watch_image.w position
  c.y ≤ (i : ℤ) ∧ (i : ℤ) < c.y + c.wh ∧ c.x ≤ (j : ℤ) ∧ (j : ℤ) < c.x + c.ww

/-- `blend_watch_on_hand` (lines 561-601): copy the hand image, clip the
watch layer and its mask against the hand bounds on all four sides,
return the (copied) hand image unchanged when the clipped layer has zero
width or height, otherwise alpha-blend the watch over the clipped
rectangle of the copy. -/
def blend_watch_on_hand (hand_image watch_image : Layer) (watch_mask : MaskL)
    (position : ℤ × ℤ) : Layer :=
  let c := clipPlacement hand_image.h hand_image.w watch_image.h watch_image.w position
  if c.ww ≤ 0 ∨ c.wh ≤ 0 then hand_image
  else
    ⟨hand_image.h, hand_image.w, fun i j =>
      if c.y ≤ (i : ℤ) ∧ (i : ℤ) < c.y + c.wh ∧ c.x ≤ (j : ℤ) ∧ (j : ℤ) < c.x + c.ww then
        blendPix (watch_image.pix ((i : ℤ) - c.y + c.rowOff).toNat ((j : ℤ) - c.x + c.colOff).toNat)
          (watch_mask.pix ((i : ℤ) - c.y + c.rowOff).toNat ((j : ℤ) - c.x + c.colOff).toNat)
          (hand_image.pix i j)
      else hand_image.pix i j⟩

/-! ## PlacementPlanner: target sizing, rotation and positioning -/

/-- `min(h_hand, w_hand) * 0.29`: the wrist-size scale of
`get_auto_target_size_with_ratio` at its default ratio. -/
def autoWristSize (hand_h hand_w : ℕ) : ℚ := ((min hand_h hand_w : ℕ) : ℚ) * 0.29

/-- `w_watch / h_watch` of the cropped watch, as exact rationals. -/
def autoAspect (watch_h watch_w : ℕ) : ℚ := (watch_w : ℚ) / (watch_h : ℚ)

/-- `get_auto_target_size_with_ratio` (lines 621-633) at its default
ratio `0.29`: scale the cropped watch so its longer side is
`0.29 × min(hand dims)`, preserving aspect; `int()` truncation on both
components; returns `(new_width, new_height)`. -/
def get_auto_target_size_with_ratio (hand_h hand_w watch_h watch_w : ℕ) : ℤ × ℤ :=
  let wrist_size := autoWristSize hand_h hand_w
  let aspect_ratio := autoAspect watch_h watch_w
  if 1 ≤ aspect_ratio then
    (pyIntQ wrist_size, pyIntQ (wrist_size / aspect_ratio))
  else
    (pyIntQ (wrist_size * aspect_ratio), pyIntQ wrist_size)

/-- `cv2.getRotationMatrix2D(center, angle, 1.0)` entry `[0,0]`:
`cos(angle · π/180)`. -/
noncomputable def rotAlpha (angle : ℝ) : ℝ := Real.cos (angle * Real.pi / 180)

/-- `cv2.getRotationMatrix2D(center, angle, 1.0)` entry `[0,1]`:
`sin(angle · π/180)`. -/
noncomputable def rotBeta (angle : ℝ) : ℝ := Real.sin (angle * Real.pi / 180)

/-- External OpenCV operations used by `resize_and_position_watch`:
`cv2.findContours` + largest contour + `cv2.boundingRect` fused,
`cv2.bitwise_and` with a mask, `cv2.resize` (which raises on nonpositive
target sizes), and `cv2.warpAffine` for the rotation. -/
structure PlaceEnv where
  largestContourRect : MaskL → Option (ℕ × ℕ × ℕ × ℕ)
  bitwiseAnd : Layer → MaskL → Layer
  resizeLayer : Layer → ℤ × ℤ → Except String Layer
  resizeMask : MaskL → ℤ × ℤ → Except String MaskL
  warpAffineLayer : Layer → ℤ × ℤ → Except String Layer
  warpAffineMask : MaskL → ℤ × ℤ → Except String MaskL

/-- `_rotate_watch` (lines 531-559): the rotated bounding-box dimensions
`new_w = int(h·|sin| + w·|cos|)`, `new_h = int(h·|cos| + w·|sin|)`, and
the two `cv2.warpAffine` calls. -/
noncomputable def _rotate_watch (env : PlaceEnv) (watch_image : Layer) (watch_mask : MaskL)
    (angle : ℝ) : Except String (Layer × MaskL) := do
  let h := watch_image.h
  let w := watch_image.w
  let cos_angle := |rotAlpha angle|
  let sin_angle := |rotBeta angle|
  let new_w := pyTrunc ((h : ℝ) * sin_angle + (w : ℝ) * cos_angle)
  let new_h := pyTrunc ((h : ℝ) * cos_angle + (w : ℝ) * sin_angle)
  let rw ← env.warpAffineLayer watch_image (new_w, new_h)
  let rm ← env.warpAffineMask watch_mask (new_w, new_h)
  pure (rw, rm)

open Classical in
/-- `resize_and_position_watch` (lines 488-529).  In the pipeline
`wrist_info` is always the 3-tuple `(x, y, angle)`, so the 2-tuple
branch of the source is dead and the angle is always present.  `None`
(the skip sentinel, `(None, None, None)` in the source) is returned
exactly when the watch mask yields no contour.  Python `//` is `Int.fdiv`. -/
noncomputable def resize_and_position_watch (env : PlaceEnv) (watch_image : Layer)
    (watch_mask : MaskL) (wrist_info : ℤ × ℤ × ℝ) (hand_image : Layer) :
    Except String (Option (Layer × MaskL × (ℤ × ℤ))) := do
  let wrist_x := wrist_info.1
  let wrist_y := wrist_info.2.1
  let wrist_angle := wrist_info.2.2
  let watch_only := env.bitwiseAnd watch_image watch_mask
  match env.largestContourRect watch_mask with
  | none => pure none
  | some (x, y, w, h) => do
      let watch_cropped : Layer := ⟨h, w, fun i j => watch_only.pix (i + y) (j + x)⟩
      let mask_cropped : MaskL := ⟨h, w, fun i j => watch_mask.pix (i + y) (j + x)⟩
      let target_size := get_auto_target_size_with_ratio hand_image.h hand_image.w
        watch_cropped.h watch_cropped.w
      let watch_resized ← env.resizeLayer watch_cropped target_size
      let mask_resized ← env.resizeMask mask_cropped target_size
      if 5 < |wrist_angle| then do
        let rot ← _rotate_watch env watch_resized mask_resized wrist_angle
        let rotated_h : ℤ := rot.1.h
        let rotated_w : ℤ := rot.1.w
        let new_x := wrist_x - rotated_w.fdiv 2
        let new_y := wrist_y - rotated_h.fdiv 2
        pure (some (rot.1, rot.2, (new_x, new_y)))
      else
        let new_x := wrist_x - target_size.1.fdiv 2
        let new_y := wrist_y - target_size.2.fdiv 2
        pure (some (watch_resized, mask_resized, (new_x, new_y)))

/-! ## HandObservationExtractor and the TryOnPipeline -/

/-- A mediapipe hand: the 21 landmarks as a total function from the
landmark index to normalized `(x, y)` coordinates. -/
abbrev Hand : Type := ℕ → ℝ × ℝ

/-- External operations of the pipeline: `cv2.imdecode` on request
bytes, the mediapipe landmark detector (`None` models
`results.multi_hand_landmarks is None`), the convex-hull fill
(`cv2.convexHull` + `cv2.fillPoly`) per hand, the
`_apply_grabcut_to_hand` call together with its internal `try`/`except`
fallback (embedded separately as `_apply_grabcut_to_hand` over `GMask`),
and `extract_watch_from_bytes` (whose internals are embedded separately
as `_create_full_image_mask` / `_apply_grabcut_refinement`). -/
structure PipeEnv where
  imdecode : List ℕ → Option Layer
  detectHands : Layer → Option (List Hand)
  hullFill : Layer → Hand → ℕ → ℕ → ℕ
  grabcutHand : Layer → (ℕ → ℕ → ℕ) → ℕ → ℕ → ℕ
  extractWatch : List ℕ → Except String (Layer × MaskL)

/-- One iteration of the landmark loop in `_process_hand_region` (lines
55-88): pixel conversion of landmarks 0/1/5/9, wrist adjustment, and the
wear angle computed from the adjusted wrist. -/
noncomputable def handObservation (image : Layer) (hand : Hand) : ℤ × ℤ × ℝ :=
  let wrist := hand 0
  let thumb_cmc := hand 1
  let index_mcp := hand 5
  let middle_mcp := hand 9
  let wrist_x := pyTrunc (wrist.1 * (image.w : ℝ))
  let wrist_y := pyTrunc (wrist.2 * (image.h : ℝ))
  let thumb_x := pyTrunc (thumb_cmc.1 * (image.w : ℝ))
  let thumb_y := pyTrunc (thumb_cmc.2 * (image.h : ℝ))
  let index_x := pyTrunc (index_mcp.1 * (image.w : ℝ))
  let index_y := pyTrunc (index_mcp.2 * (image.h : ℝ))
  let middle_x := pyTrunc (middle_mcp.1 * (image.w : ℝ))
  let middle_y := pyTrunc (middle_mcp.2 * (image.h : ℝ))
  let adj := _adjust_wrist_position (wrist_x, wrist_y) (thumb_x, thumb_y)
    (index_x, index_y) (middle_x, middle_y)
  let wrist_angle := _calculate_wrist_angle adj (thumb_x, thumb_y)
    (index_x, index_y) (middle_x, middle_y)
  (adj.1, adj.2, wrist_angle)

/-- `_process_hand_region` (lines 46-107): when the detector reports no
hands the wrist list is empty and the hand mask stays `np.zeros`;
otherwise one observation per hand and the union of the filled convex
hulls, optionally refined through the hand GrabCut call when non-empty. -/
noncomputable def _process_hand_region (env : PipeEnv) (image : Layer) :
    Layer × (ℕ → ℕ → ℕ) × List (ℤ × ℤ × ℝ) :=
  let results := env.detectHands image
  let wrist_info : List (ℤ × ℤ × ℝ) :=
    match results with
    | none => []
    | some hands => hands.map (handObservation image)
  let hand_mask : ℕ → ℕ → ℕ :=
    match results with
    | none => fun _ _ => 0
    | some hands =>
        hands.foldl (fun m hand => fun i j => max (m i j) (env.hullFill image hand i j))
          (fun _ _ => 0)
  let hand_mask :=
    if 0 < gridSum image.h image.w hand_mask then env.grabcutHand image hand_mask else hand_mask
  (image, hand_mask, wrist_info)

/-- `extract_hand_region_from_bytes` (lines 27-36): decode failure raises
`ValueError`, otherwise process the decoded image. -/
noncomputable def extract_hand_region_from_bytes (env : PipeEnv) (image_bytes : List ℕ) :
    Except String (Layer × (ℕ → ℕ → ℕ) × List (ℤ × ℤ × ℝ)) :=
  match env.imdecode image_bytes with
  | none => Except.error "이미지 데이터를 읽을 수 없습니다."
  | some image => Except.ok (_process_hand_region env image)

/-- Body of `process_virtual_try_on_from_bytes` (lines 635-666) inside
its `try`: extract hand observations, raise `ValueError` when no wrist
was found, extract the watch, and fold the per-wrist place-and-blend
over a copy of the hand image (a `None` placement skips that wrist). -/
noncomputable def tryOnBody (env : PipeEnv) (penv : PlaceEnv)
    (hand_image_bytes watch_image_bytes : List ℕ) : Except String (Layer × Layer) := do
  let hr ← extract_hand_region_from_bytes env hand_image_bytes
  let hand_image := hr.1
  let wrist_info_list := hr.2.2
  if wrist_info_list.isEmpty then
    Except.error "손목을 찾을 수 없습니다."
  else do
    let ws ← env.extractWatch watch_image_bytes
    let result ← wrist_info_list.foldlM (fun result wrist_info => do
        let placed ← resize_and_position_watch penv ws.1 ws.2 wrist_info hand_image
        match placed with
        | some (wp, mp, npos) => pure (blend_watch_on_hand result wp mp npos)
        | none => pure result) hand_image
    pure (hand_image, result)

/-- `process_virtual_try_on_from_bytes` (lines 635-670): the outer
`except` converts any raised error into the `(None, None)` failure
result. -/
noncomputable def process_virtual_try_on_from_bytes (env : PipeEnv) (penv : PlaceEnv)
    (hand_image_bytes watch_image_bytes : List ℕ) : Option Layer × Option Layer :=
  match tryOnBody env penv hand_image_bytes watch_image_bytes with
  | Except.ok r => (some r.1, some r.2)
  | Except.error _ => (none, none)

/-- An HTTP failure: status code and human-readable detail. -/
structure HTTPError where
  status : ℕ
  detail : String

/-- The `/virtual-try-on` route of `main.py` (lines 286-354) around the
pipeline call: a `(None, None)` pipeline result raises
`HTTPException(500, "가상 착용 처리에 실패했습니다. ...")`, which the
route's own `except Exception` handler re-raises as
`HTTPException(500, f"가상 착용 처리 중 오류: {str(e)}")` (the string of
the inner exception carries its detail). -/
noncomputable def virtual_try_on_route (env : PipeEnv) (penv : PlaceEnv)
    (hand_image_bytes watch_image_bytes : List ℕ) : Except HTTPError Layer :=
  match process_virtual_try_on_from_bytes env penv hand_image_bytes watch_image_bytes with
  | (some _original_hand, some result_image) => Except.ok result_image
  | _ => Except.error ⟨500, "가상 착용 처리 중 오류: " ++
      "가상 착용 처리에 실패했습니다. 손목이 명확하게 보이는 이미지를 사용해주세요."⟩

/-! ## Concrete instances for witnesses -/

/-- A concrete 4×4 hand image. -/
def hand0 : Layer := ⟨4, 4, fun _ _ => (1, 2, 3)⟩

/-- A concrete 2×3 watch layer. -/
def watch0 : Layer := ⟨2, 3, fun _ _ => (9, 9, 9)⟩

/-- A fully-opaque 2×3 watch mask. -/
def mask255 : MaskL := ⟨2, 3, fun _ _ => 255⟩

/-- A pipeline environment whose landmark detector reports zero hands. -/
def noHandsEnv : PipeEnv :=
  ⟨fun _ => some hand0, fun _ => none, fun _ _ _ _ => 0, fun _ m => m,
   fun _ => Except.error "watch"⟩

/-- A trivial placement environment. -/
def trivialPlaceEnv : PlaceEnv :=
  ⟨fun _ => none, fun l _ => l, fun l _ => Except.ok l, fun m _ => Except.ok m,
   fun l _ => Except.ok l, fun m _ => Except.ok m⟩

/-! ### Range lemmas for the normalization loops -/

theorem normDown_le (a : ℝ) : normDown a ≤ 180 := by
  rw [normDown]
  split
  · exact normDown_le (a - 360)
  · linarith [not_lt.mp (by assumption : ¬ 180 < a)]
termination_by (⌈(a - 180) / 360⌉).toNat
decreasing_by
  have h1 : (0:ℝ) < (a - 180) / 360 := by
    apply div_pos
    · linarith
    · norm_num
  have h2 : (0:ℤ) < ⌈(a - 180) / 360⌉ := Int.ceil_pos.mpr h1
  have h3 : (a - 360 - 180) / 360 = (a - 180) / 360 - 1 := by ring
  have h4 : ⌈(a - 360 - 180) / 360⌉ = ⌈(a - 180) / 360⌉ - 1 := by
    rw [h3]
    exact_mod_cast Int.ceil_sub_int ((a - 180) / 360) 1
  omega

theorem normDown_gt (a : ℝ) (h : -180 < a) : -180 < normDown a := by
  rw [normDown]
  split
  · exact normDown_gt (a - 360) (by linarith)
  · exact h
termination_by (⌈(a - 180) / 360⌉).toNat
decreasing_by
  have h1 : (0:ℝ) < (a - 180) / 360 := by
    apply div_pos
    · linarith
    · norm_num
  have h2 : (0:ℤ) < ⌈(a - 180) / 360⌉ := Int.ceil_pos.mpr h1
  have h3 : (a - 360 - 180) / 360 = (a - 180) / 360 - 1 := by ring
  have h4 : ⌈(a - 360 - 180) / 360⌉ = ⌈(a - 180) / 360⌉ - 1 := by
    rw [h3]
    exact_mod_cast Int.ceil_sub_int ((a - 180) / 360) 1
  omega

theorem normDown_eq_self (a : ℝ) (h : a ≤ 180) : normDown a = a := by
  rw [normDown]
  split
  · linarith
  · rfl

theorem normUp_eq_self (a : ℝ) (h : -180 ≤ a) : normUp a = a := by
  rw [normUp]
  split
  · linarith
  · rfl

/-- The composite normalization lands in `(-180, 180]` whenever its input
exceeds `-180` strictly. -/
theorem normalize_angle_mem (a : ℝ) (h : -180 < a) :
    -180 < normalize_angle a ∧ normalize_angle a ≤ 180 := by
  unfold normalize_angle
  have h1 := normDown_le a
  have h2 := normDown_gt a h
  rw [normUp_eq_self _ (le_of_lt h2)]
  exact ⟨h2, h1⟩

theorem normalize_angle_eq_self (a : ℝ) (h1 : -180 ≤ a) (h2 : a ≤ 180) :
    normalize_angle a = a := by
  unfold normalize_angle
  rw [normDown_eq_self a h2, normUp_eq_self a h1]

/-- `atan2deg` always lands in `(-180, 180]`, the range of
`math.degrees(math.atan2 _ _)` (including the degenerate `atan2 0 0 = 0`). -/
theorem atan2deg_mem (y x : ℝ) : -180 < atan2deg y x ∧ atan2deg y x ≤ 180 := by
  unfold atan2deg
  have hpi : (0:ℝ) < Real.pi := Real.pi_pos
  have harg := Complex.arg_mem_Ioc (x + y * Complex.I)
  obtain ⟨hlo, hhi⟩ := harg
  constructor
  · rw [lt_div_iff₀ hpi]
    nlinarith
  · rw [div_le_iff₀ hpi]
    nlinarith

/-- **C1**: for every landmark input (all integer pixel positions of the
wrist, thumb CMC, index MCP and middle MCP, including degenerate inputs
where the wrist-to-middle-MCP vector has zero length), the wear angle
returned by `_calculate_wrist_angle` — `normalize` of the atan2 degrees,
then `+90` and a second normalization via the repeated `±360` loops —
lies in the half-open interval `(-180, 180]`: it is never exactly `-180`
and never exceeds `180`. -/
theorem wrist_angle_range (wrist_pos thumb_pos index_pos middle_pos : ℤ × ℤ) :
    -180 < _calculate_wrist_angle wrist_pos thumb_pos index_pos middle_pos ∧
      _calculate_wrist_angle wrist_pos thumb_pos index_pos middle_pos ≤ 180 := by
  unfold _calculate_wrist_angle
  simp only
  obtain ⟨ha1, ha2⟩ :=
    atan2deg_mem ((middle_pos.2 - wrist_pos.2 : ℤ) : ℝ) ((middle_pos.1 - wrist_pos.1 : ℤ) : ℝ)
  rw [normalize_angle_eq_self _ (le_of_lt ha1) ha2]
  apply normalize_angle_mem
  linarith

theorem pyTrunc_intCast (n : ℤ) : pyTrunc ((n : ℝ)) = n := by
  unfold pyTrunc
  split
  · rw [Int.ceil_intCast]
  · rw [Int.floor_intCast]

theorem adjust_wrist_zero (wrist_pos thumb_pos index_pos middle_pos : ℤ × ℤ)
    (h : middle_pos.1 - wrist_pos.1 = 0 ∧ middle_pos.2 - wrist_pos.2 = 0) :
    _adjust_wrist_position wrist_pos thumb_pos index_pos middle_pos = wrist_pos := by
  unfold _adjust_wrist_position
  rw [h.1, h.2]
  simp

theorem adjust_wrist_nonzero (wrist_pos thumb_pos index_pos middle_pos : ℤ × ℤ)
    (h : ¬ (middle_pos.1 - wrist_pos.1 = 0 ∧ middle_pos.2 - wrist_pos.2 = 0)) :
    _adjust_wrist_position wrist_pos thumb_pos index_pos middle_pos =
      (pyTrunc ((wrist_pos.1 : ℝ) + 0.35 * vecNorm wrist_pos middle_pos *
          (-((middle_pos.1 - wrist_pos.1 : ℤ) : ℝ) / vecNorm wrist_pos middle_pos)),
       pyTrunc ((wrist_pos.2 : ℝ) + 0.35 * vecNorm wrist_pos middle_pos *
          (-((middle_pos.2 - wrist_pos.2 : ℤ) : ℝ) / vecNorm wrist_pos middle_pos))) := by
  have hpos : (0:ℝ) < ((middle_pos.1 - wrist_pos.1 : ℤ) : ℝ) * ((middle_pos.1 - wrist_pos.1 : ℤ) : ℝ) +
      ((middle_pos.2 - wrist_pos.2 : ℤ) : ℝ) * ((middle_pos.2 - wrist_pos.2 : ℤ) : ℝ) := by
    rcases not_and_or.mp h with h1 | h1
    · have hx : (0:ℝ) < ((middle_pos.1 - wrist_pos.1 : ℤ) : ℝ) * ((middle_pos.1 - wrist_pos.1 : ℤ) : ℝ) :=
        mul_self_pos.mpr (by exact_mod_cast h1)
      linarith [mul_self_nonneg ((middle_pos.2 - wrist_pos.2 : ℤ) : ℝ)]
    · have hy : (0:ℝ) < ((middle_pos.2 - wrist_pos.2 : ℤ) : ℝ) * ((middle_pos.2 - wrist_pos.2 : ℤ) : ℝ) :=
        mul_self_pos.mpr (by exact_mod_cast h1)
      linarith [mul_self_nonneg ((middle_pos.1 - wrist_pos.1 : ℤ) : ℝ)]
  have hlen : Real.sqrt (((middle_pos.1 - wrist_pos.1 : ℤ) : ℝ) * ((middle_pos.1 - wrist_pos.1 : ℤ) : ℝ) +
      ((middle_pos.2 - wrist_pos.2 : ℤ) : ℝ) * ((middle_pos.2 - wrist_pos.2 : ℤ) : ℝ)) ≠ 0 :=
    ne_of_gt (Real.sqrt_pos.mpr hpos)
  simp only [_adjust_wrist_position, vecNorm]
  rw [if_neg hlen, Prod.mk.injEq]
  constructor <;> · congr 1; ring

/-- **C2**: for every raw wrist position and middle-MCP position (integer
pixel points), with `v = middle_mcp - wrist_raw`: if `|v| = 0` the
adjusted wrist equals the raw wrist unchanged; otherwise the adjusted
wrist is the raw wrist moved along the unit vector `-v/|v|` (away from
the middle MCP) by exactly `0.35 x |v|`, each coordinate truncated to an
integer by Python `int()`. -/
theorem adjust_wrist_correct (wrist_pos thumb_pos index_pos middle_pos : ℤ × ℤ) :
    (middle_pos.1 - wrist_pos.1 = 0 ∧ middle_pos.2 - wrist_pos.2 = 0 →
      _adjust_wrist_position wrist_pos thumb_pos index_pos middle_pos = wrist_pos) ∧
    (¬ (middle_pos.1 - wrist_pos.1 = 0 ∧ middle_pos.2 - wrist_pos.2 = 0) →
      _adjust_wrist_position wrist_pos thumb_pos index_pos middle_pos =
        (pyTrunc ((wrist_pos.1 : ℝ) + 0.35 * vecNorm wrist_pos middle_pos *
            (-((middle_pos.1 - wrist_pos.1 : ℤ) : ℝ) / vecNorm wrist_pos middle_pos)),
         pyTrunc ((wrist_pos.2 : ℝ) + 0.35 * vecNorm wrist_pos middle_pos *
            (-((middle_pos.2 - wrist_pos.2 : ℤ) : ℝ) / vecNorm wrist_pos middle_pos)))) :=
  ⟨adjust_wrist_zero wrist_pos thumb_pos index_pos middle_pos,
   adjust_wrist_nonzero wrist_pos thumb_pos index_pos middle_pos⟩

/-- Witness for `adjust_wrist_correct`: at raw wrist `(100,100)` and
middle MCP `(100,60)` the nonzero-vector hypothesis is discharged
concretely and the theorem gives the displacement formula. -/
theorem adjust_wrist_correct_witness :
    (¬ (((100, 60) : ℤ × ℤ).1 - ((100, 100) : ℤ × ℤ).1 = 0 ∧
        ((100, 60) : ℤ × ℤ).2 - ((100, 100) : ℤ × ℤ).2 = 0)) ∧
      _adjust_wrist_position (100, 100) (90, 80) (110, 80) (100, 60) =
        (pyTrunc ((((100, 100) : ℤ × ℤ).1 : ℝ) + 0.35 * vecNorm (100, 100) (100, 60) *
            (-((((100, 60) : ℤ × ℤ).1 - ((100, 100) : ℤ × ℤ).1 : ℤ) : ℝ) / vecNorm (100, 100) (100, 60))),
         pyTrunc ((((100, 100) : ℤ × ℤ).2 : ℝ) + 0.35 * vecNorm (100, 100) (100, 60) *
            (-((((100, 60) : ℤ × ℤ).2 - ((100, 100) : ℤ × ℤ).2 : ℤ) : ℝ) / vecNorm (100, 100) (100, 60)))) :=
  ⟨by decide, (adjust_wrist_correct (100, 100) (90, 80) (110, 80) (100, 60)).2 (by decide)⟩

theorem vecNorm_scenario : vecNorm (100, 100) (100, 60) = 40 := by
  unfold vecNorm
  norm_num
  rw [show (1600:ℝ) = 40 ^ 2 by norm_num, Real.sqrt_sq (by norm_num : (0:ℝ) ≤ 40)]

theorem atan2deg_down : atan2deg (-54 : ℝ) 0 = -90 := by
  unfold atan2deg
  have h1 : ((0:ℝ) : ℂ) + ((-54:ℝ) : ℂ) * Complex.I = (54 : ℝ) * (-Complex.I) := by
    push_cast
    ring
  rw [h1, Complex.arg_real_mul _ (by norm_num : (0:ℝ) < 54), Complex.arg_neg_I,
    div_eq_iff Real.pi_ne_zero]
  ring

/-- **C3**: on the literal scenario where the landmarks place the raw
wrist at pixel `(100,100)` and the middle MCP at `(100,60)`, the
extractor adjusts the wrist to `(100, 100 + 0.35 x 40) = (100, 114)` and
the wear angle — the documented `normalize(angle1 + 90)` formula applied
to the atan2 degrees of the vector from the adjusted wrist to the middle
MCP, which is `-90` — is `0` degrees. -/
theorem literal_scenario_wrist_and_angle :
    _adjust_wrist_position (100, 100) (90, 80) (110, 80) (100, 60) = (100, 114) ∧
      _calculate_wrist_angle (100, 114) (90, 80) (110, 80) (100, 60) = 0 := by
  constructor
  · rw [adjust_wrist_nonzero (100, 100) (90, 80) (110, 80) (100, 60) (by decide)]
    rw [vecNorm_scenario]
    have h1 : ((((100, 100) : ℤ × ℤ).1 : ℝ) + 0.35 * 40 *
        (-((((100, 60) : ℤ × ℤ).1 - ((100, 100) : ℤ × ℤ).1 : ℤ) : ℝ) / 40)) = ((100 : ℤ) : ℝ) := by
      norm_num
    have h2 : ((((100, 100) : ℤ × ℤ).2 : ℝ) + 0.35 * 40 *
        (-((((100, 60) : ℤ × ℤ).2 - ((100, 100) : ℤ × ℤ).2 : ℤ) : ℝ) / 40)) = ((114 : ℤ) : ℝ) := by
      norm_num
    rw [h1, h2, pyTrunc_intCast, pyTrunc_intCast]
  · simp only [_calculate_wrist_angle]
    have hcast1 : ((((100, 60) : ℤ × ℤ).2 - ((100, 114) : ℤ × ℤ).2 : ℤ) : ℝ) = (-54 : ℝ) := by
      norm_num
    have hcast2 : ((((100, 60) : ℤ × ℤ).1 - ((100, 114) : ℤ × ℤ).1 : ℤ) : ℝ) = (0 : ℝ) := by
      norm_num
    rw [hcast1, hcast2, atan2deg_down,
      normalize_angle_eq_self (-90) (by norm_num) (by norm_num)]
    norm_num
    exact normalize_angle_eq_self 0 (by norm_num) (by norm_num)

theorem grabcutRefineBody_ok (env : CvEnv) (image initial_mask r : GMask)
    (h : grabcutRefineBody env image initial_mask = Except.ok r) :
    r = initial_mask ∨ ¬ ((maskSum r : ℚ) < (maskSum initial_mask : ℚ) * 0.3) := by
  unfold grabcutRefineBody at h
  simp only [bind, Except.bind, pure, Except.pure] at h
  repeat' split at h
  all_goals simp_all

/-- **C4**: for every environment (hence every watch image and
pre-refinement mask, and every behaviour of the external OpenCV calls,
including raising): if any step of the refinement raises, the refinement
returns the pre-refinement mask unchanged; and the returned mask is
either the pre-refinement mask itself or a refined mask passing the 30%
acceptance gate — a refined mask whose foreground sum is below 30% of
the pre-refinement mask's sum is never returned.  The wrapper returns a
plain mask (never an error), so refinement never raises to its caller. -/
theorem watch_refine_gate_and_fault (env : CvEnv) (image initial_mask : GMask) :
    (∀ e, grabcutRefineBody env image initial_mask = Except.error e →
        _apply_grabcut_refinement env image initial_mask = initial_mask) ∧
    (_apply_grabcut_refinement env image initial_mask = initial_mask ∨
      ¬ ((maskSum (_apply_grabcut_refinement env image initial_mask) : ℚ) <
          (maskSum initial_mask : ℚ) * 0.3)) := by
  constructor
  · intro e he
    unfold _apply_grabcut_refinement
    rw [he]
  · unfold _apply_grabcut_refinement
    cases hb : grabcutRefineBody env image initial_mask with
    | ok m => exact grabcutRefineBody_ok env image initial_mask m hb
    | error e => exact Or.inl rfl

/-- Witness for `watch_refine_gate_and_fault`: with an environment whose
first OpenCV call raises, the refinement returns the pre-refinement mask
unchanged. -/
theorem watch_refine_gate_and_fault_witness :
    _apply_grabcut_refinement failEnv [[0]] [[255]] = [[255]] :=
  (watch_refine_gate_and_fault failEnv [[0]] [[255]]).1 "cv2 error" (by rfl)

/-- **C10 counterexample**: the hand-silhouette refinement is NOT the
watch trimap routine with a 3×3 erosion/dilation kernel over 3
iterations and a 50% gate: under a probe environment whose erosion
depends on the kernel-size argument, the source's hand path (which
passes a 5×5 kernel) produces a different mask than the claimed
3×3-kernel routine on the concrete image `[[7, 7]]` with initial mask
`[[255, 0]]`. -/
theorem hand_refine_not_3x3 :
    _apply_grabcut_to_hand probeEnv [[7, 7]] [[255, 0]] ≠
      grabcutRoutine probeEnv 3 3 3 0.5 false [[7, 7]] [[255, 0]] := by
  norm_num [_apply_grabcut_to_hand, grabcutHandBody, grabcutRoutine, grabcutRoutineBody,
    probeEnv, buildTrimap, trimapPix, _get_bounding_rect_from_mask, gHeight, gWidth, maskSum,
    bind, Except.bind, pure, Except.pure, List.zipWith3]

/-- **C10 (amended)**: the hand-silhouette refinement reuses the same
parameterized trimap-refinement routine as the watch path, but with a
5×5 erosion/dilation kernel over 3 iterations (not 3×3), 5 GrabCut
iterations, an acceptance gate of 50% (the refined mask is kept only
when its foreground pixel sum is at least 50% of the initial hand mask's
sum, otherwise the initial mask is returned), and a 3×3 close/open
post-pass on an accepted result; the watch path instantiates the same
routine at 3×3 kernel / 2 iterations, 3 GrabCut iterations, a 30% gate
and no post-pass. -/
theorem hand_refine_routine (env : CvEnv) (image initial_mask : GMask) :
    _apply_grabcut_to_hand env image initial_mask =
        grabcutRoutine env 5 3 5 0.5 true image initial_mask ∧
      _apply_grabcut_refinement env image initial_mask =
        grabcutRoutine env 3 2 3 0.3 false image initial_mask :=
  ⟨rfl, rfl⟩

theorem fallbackMargin_eq (n : ℕ) : fallbackMargin n = n / 10 := by
  unfold fallbackMargin pyIntQ
  rw [if_neg (not_lt.mpr (by positivity : (0:ℚ) ≤ (n : ℚ) * 0.1))]
  rw [show (n : ℚ) * 0.1 = ((n : ℕ) : ℚ) / ((10 : ℕ) : ℚ) by push_cast; ring]
  rw [Rat.floor_natCast_div_natCast n 10]
  omega

/-- **C5**: for every positive image size `h × w`, an empty detector
union mask makes the watch extraction substitute the fallback mask;
the fallback mask is 255 exactly on the rectangle
`[⌊0.1·h⌋, h - ⌊0.1·h⌋) × [⌊0.1·w⌋, w - ⌊0.1·w⌋)` and 0 elsewhere; and
it contains at least one 255 pixel (non-empty) for every positive size. -/
theorem fallback_mask_correct (h w : ℕ) (hh : 0 < h) (hw : 0 < w) :
    (∀ watch_mask : ℕ → ℕ → ℕ, gridSum h w watch_mask = 0 →
        watchMaskOrFallback h w watch_mask = _create_full_image_mask h w) ∧
    (∀ i, i < h → ∀ j, j < w →
        (_create_full_image_mask h w i j = 255 ↔
          (fallbackMargin h ≤ i ∧ i < h - fallbackMargin h ∧
            fallbackMargin w ≤ j ∧ j < w - fallbackMargin w)) ∧
        (_create_full_image_mask h w i j = 0 ↔
          ¬ (fallbackMargin h ≤ i ∧ i < h - fallbackMargin h ∧
            fallbackMargin w ≤ j ∧ j < w - fallbackMargin w))) ∧
    (∃ i j, i < h ∧ j < w ∧ _create_full_image_mask h w i j = 255) := by
  refine ⟨?_, ?_, ?_⟩
  · intro watch_mask h0
    unfold watchMaskOrFallback
    rw [if_pos h0]
  · intro i _ j _
    unfold _create_full_image_mask
    by_cases hin : fallbackMargin h ≤ i ∧ i < h - fallbackMargin h ∧
        fallbackMargin w ≤ j ∧ j < w - fallbackMargin w
    · rw [if_pos hin]
      simp [hin]
    · rw [if_neg hin]
      simp [hin]
  · refine ⟨fallbackMargin h, fallbackMargin w, ?_, ?_, ?_⟩
    · rw [fallbackMargin_eq]
      omega
    · rw [fallbackMargin_eq]
      omega
    · unfold _create_full_image_mask
      rw [if_pos]
      refine ⟨le_refl _, ?_, le_refl _, ?_⟩ <;> · rw [fallbackMargin_eq]; omega

/-- Witness for `fallback_mask_correct` on a concrete `20 × 20` image:
the margin is 2 and the pixel `(2, 2)` of the fallback mask is 255. -/
theorem fallback_mask_correct_witness :
    (2 : ℕ) < 20 ∧ _create_full_image_mask 20 20 2 2 = 255 :=
  ⟨by norm_num,
   ((fallback_mask_correct 20 20 (by norm_num) (by norm_num)).2.1 2 (by norm_num) 2
       (by norm_num)).1.mpr (by simp [fallbackMargin_eq])⟩

/-- **C7**: whenever the four-sided clip of the watch layer against the
hand image bounds leaves zero (or negative) width or height — e.g. a
placement entirely outside the image — the Compositor returns the hand
image unchanged (pixel-for-pixel: the very same `Layer`), and it is a
total function, so it cannot fault. -/
theorem compositor_zero_clip (hand_image watch_image : Layer) (watch_mask : MaskL)
    (position : ℤ × ℤ)
    (hzero : (clipPlacement hand_image.h hand_image.w watch_image.h watch_image.w position).ww ≤ 0 ∨
      (clipPlacement hand_image.h hand_image.w watch_image.h watch_image.w position).wh ≤ 0) :
    blend_watch_on_hand hand_image watch_image watch_mask position = hand_image := by
  simp only [blend_watch_on_hand]
  rw [if_pos hzero]

/-- Witness for `compositor_zero_clip`: `topLeft.x = -watch_w - 10 = -13`
places the 2×3 watch layer fully outside the 4×4 hand image; the clip
width collapses and the hand image is returned unchanged. -/
theorem compositor_zero_clip_witness :
    ((clipPlacement hand0.h hand0.w watch0.h watch0.w (-13, 0)).ww ≤ 0 ∨
      (clipPlacement hand0.h hand0.w watch0.h watch0.w (-13, 0)).wh ≤ 0) ∧
    blend_watch_on_hand hand0 watch0 mask255 (-13, 0) = hand0 :=
  ⟨Or.inl (by decide), compositor_zero_clip hand0 watch0 mask255 (-13, 0) (Or.inl (by decide))⟩

/-- **C9**: the Compositor's output is a fresh buffer with the hand
image's dimensions (the embedding is a pure function: the input hand
image is not mutated), and every output pixel outside the clipped
placement rectangle `[y, y + watch_h) × [x, x + watch_w)` equals the
corresponding input hand image pixel. -/
theorem compositor_frame (hand_image watch_image : Layer) (watch_mask : MaskL)
    (position : ℤ × ℤ) :
    (blend_watch_on_hand hand_image watch_image watch_mask position).h = hand_image.h ∧
    (blend_watch_on_hand hand_image watch_image watch_mask position).w = hand_image.w ∧
    (∀ i j : ℕ, ¬ inClipRect hand_image watch_image position i j →
      (blend_watch_on_hand hand_image watch_image watch_mask position).pix i j =
        hand_image.pix i j) := by
  simp only [blend_watch_on_hand]
  split
  · exact ⟨rfl, rfl, fun i j _ => rfl⟩
  · refine ⟨rfl, rfl, fun i j hij => ?_⟩
    exact if_neg hij

/-- Witness for `compositor_frame`: pixel `(0,0)` lies outside the
clipped rectangle of a placement at `(1,1)` and is preserved. -/
theorem compositor_frame_witness :
    ¬ inClipRect hand0 watch0 (1, 1) 0 0 ∧
      (blend_watch_on_hand hand0 watch0 mask255 (1, 1)).pix 0 0 = hand0.pix 0 0 :=
  ⟨by decide, (compositor_frame hand0 watch0 mask255 (1, 1)).2.2 0 0 (by decide)⟩

theorem pyIntQ_pos_iff (q : ℚ) (hq : 0 ≤ q) : 0 < pyIntQ q ↔ 1 ≤ q := by
  unfold pyIntQ
  rw [if_neg (not_lt.mpr hq)]
  constructor
  · intro h
    have h1 : (1:ℤ) ≤ ⌊q⌋ := h
    calc (1:ℚ) = ((1:ℤ):ℚ) := by norm_num
      _ ≤ (⌊q⌋ : ℚ) := by exact_mod_cast h1
      _ ≤ q := Int.floor_le q
  · intro h
    have h1 : (1:ℤ) ≤ ⌊q⌋ := Int.le_floor.mpr (by exact_mod_cast h)
    omega

/-- **C8 counterexample**: on a 3×3 hand image and a 10×10 watch crop
(a mask with a contour — its bounding box is square), both components of
the computed `targetSize` are 0, not strictly positive:
`int(3 × 0.29) = 0`. -/
theorem target_size_zero_counterexample :
    ¬ (0 < (get_auto_target_size_with_ratio 3 3 10 10).1 ∧
        0 < (get_auto_target_size_with_ratio 3 3 10 10).2) := by
  have ha : autoAspect 10 10 = 1 := by norm_num [autoAspect]
  have hws : autoWristSize 3 3 = 87 / 100 := by norm_num [autoWristSize]
  have hg : get_auto_target_size_with_ratio 3 3 10 10 =
      (pyIntQ (autoWristSize 3 3), pyIntQ (autoWristSize 3 3 / autoAspect 10 10)) := by
    unfold get_auto_target_size_with_ratio
    rw [if_pos (by rw [ha])]
  rintro ⟨h1, _⟩
  rw [hg] at h1
  simp only at h1
  rw [pyIntQ_pos_iff _ (by rw [hws]; norm_num)] at h1
  rw [hws] at h1
  norm_num at h1

/-- **C8 (amended)**: for a watch crop with positive dimensions, both
components of the computed `targetSize` are strictly positive exactly
when `0.29 × min(hand dims)` is at least the crop's aspect ratio (when
aspect ≥ 1) resp. its inverse (when aspect < 1) — on smaller hand
images or extreme aspect ratios a component is 0 and reaches the resize
step; and placement is skipped (the `None` sentinel) exactly when the
watch mask yields no contour. -/
theorem target_size_positivity_and_skip (hand_h hand_w watch_h watch_w : ℕ)
    (hwh : 0 < watch_h) (hww : 0 < watch_w) :
    ((0 < (get_auto_target_size_with_ratio hand_h hand_w watch_h watch_w).1 ∧
        0 < (get_auto_target_size_with_ratio hand_h hand_w watch_h watch_w).2) ↔
      (if 1 ≤ autoAspect watch_h watch_w then
        autoAspect watch_h watch_w ≤ autoWristSize hand_h hand_w
      else (autoAspect watch_h watch_w)⁻¹ ≤ autoWristSize hand_h hand_w)) ∧
    (∀ (env : PlaceEnv) (watch_image : Layer) (watch_mask : MaskL) (wrist_info : ℤ × ℤ × ℝ)
        (hand_image : Layer),
      resize_and_position_watch env watch_image watch_mask wrist_info hand_image =
          Except.ok none ↔ env.largestContourRect watch_mask = none) := by
  constructor
  · have haspect : 0 < autoAspect watch_h watch_w := by
      unfold autoAspect
      positivity
    have hws0 : 0 ≤ autoWristSize hand_h hand_w := by
      unfold autoWristSize
      positivity
    by_cases hc : 1 ≤ autoAspect watch_h watch_w
    · rw [if_pos hc]
      unfold get_auto_target_size_with_ratio
      rw [if_pos hc]
      simp only
      rw [pyIntQ_pos_iff _ hws0, pyIntQ_pos_iff _ (div_nonneg hws0 (le_of_lt haspect))]
      constructor
      · rintro ⟨_, h2⟩
        have := (le_div_iff₀ haspect).mp h2
        linarith
      · intro h2
        refine ⟨le_trans hc h2, ?_⟩
        rw [le_div_iff₀ haspect]
        linarith
    · rw [if_neg hc]
      push_neg at hc
      unfold get_auto_target_size_with_ratio
      rw [if_neg (not_le.mpr hc)]
      simp only
      rw [pyIntQ_pos_iff _ (mul_nonneg hws0 (le_of_lt haspect)), pyIntQ_pos_iff _ hws0]
      have hinv : (autoAspect watch_h watch_w)⁻¹ ≤ autoWristSize hand_h hand_w ↔
          1 ≤ autoWristSize hand_h hand_w * autoAspect watch_h watch_w := by
        rw [← one_div, div_le_iff₀ haspect]
      constructor
      · rintro ⟨h1, _⟩
        exact hinv.mpr h1
      · intro h2
        have h1 := hinv.mp h2
        have hinvgt : 1 < (autoAspect watch_h watch_w)⁻¹ := (one_lt_inv₀ haspect).mpr hc
        exact ⟨h1, le_trans (le_of_lt hinvgt) h2⟩
  · intro env watch_image watch_mask wrist_info hand_image
    unfold resize_and_position_watch
    cases hrect : env.largestContourRect watch_mask with
    | none => simp [pure, Except.pure]
    | some r =>
      obtain ⟨x, y, w, h⟩ := r
      simp only [bind, Except.bind, pure, Except.pure]
      constructor
      · intro hcontra
        exfalso
        repeat' split at hcontra
        all_goals simp_all [_rotate_watch, bind, Except.bind, pure, Except.pure]
      · intro hcontra
        simp at hcontra

/-- Witness for `target_size_positivity_and_skip`: a 200×200 hand image
and a square 10×10 crop give strictly positive target components. -/
theorem target_size_positivity_and_skip_witness :
    0 < (get_auto_target_size_with_ratio 200 200 10 10).1 ∧
      0 < (get_auto_target_size_with_ratio 200 200 10 10).2 :=
  ((target_size_positivity_and_skip 200 200 10 10 (by norm_num) (by norm_num)).1).mpr
    (by rw [if_pos (by norm_num [autoAspect])]; norm_num [autoAspect, autoWristSize])

/-- **C6**: whenever the landmark detector reports zero hands on the
decoded hand image: the extractor returns an empty observation list
(it is total, so it does not raise), the try-on pipeline does not
return a normal composite but the explicit `(None, None)` failure
result, and the web route surfaces an explicit HTTP 500 failure whose
human-readable detail tells the caller to use an image with a clearly
visible wrist. -/
theorem no_wrist_found (env : PipeEnv) (penv : PlaceEnv)
    (hand_image_bytes watch_image_bytes : List ℕ) (image : Layer)
    (hdec : env.imdecode hand_image_bytes = some image)
    (hdet : env.detectHands image = none) :
    (_process_hand_region env image).2.2 = [] ∧
    process_virtual_try_on_from_bytes env penv hand_image_bytes watch_image_bytes =
      (none, none) ∧
    virtual_try_on_route env penv hand_image_bytes watch_image_bytes =
      Except.error ⟨500, "가상 착용 처리 중 오류: " ++
        "가상 착용 처리에 실패했습니다. 손목이 명확하게 보이는 이미지를 사용해주세요."⟩ := by
  have hempty : (_process_hand_region env image).2.2 = [] := by
    simp only [_process_hand_region, hdet]
  have hpipe : process_virtual_try_on_from_bytes env penv hand_image_bytes watch_image_bytes =
      (none, none) := by
    unfold process_virtual_try_on_from_bytes tryOnBody extract_hand_region_from_bytes
    rw [hdec]
    simp only [bind, Except.bind]
    rw [hempty]
    simp
  refine ⟨hempty, hpipe, ?_⟩
  unfold virtual_try_on_route
  rw [hpipe]

/-- Witness for `no_wrist_found`: a concrete environment whose landmark
detector reports zero hands makes the pipeline fail explicitly. -/
theorem no_wrist_found_witness :
    (_process_hand_region noHandsEnv hand0).2.2 = [] ∧
    process_virtual_try_on_from_bytes noHandsEnv trivialPlaceEnv [] [] = (none, none) ∧
    virtual_try_on_route noHandsEnv trivialPlaceEnv [] [] =
      Except.error ⟨500, "가상 착용 처리 중 오류: " ++
        "가상 착용 처리에 실패했습니다. 손목이 명확하게 보이는 이미지를 사용해주세요."⟩ :=
  no_wrist_found noHandsEnv trivialPlaceEnv [] [] hand0 rfl rfl
